import Mathlib

/-!
Verification of the GLV (Generalized Lotka-Volterra) simulation core found in
`src/app/page.tsx` and `src/unnamed/part_000`.

Modelling conventions: JavaScript numbers are embedded as rationals (`ℚ`),
JavaScript arrays as lists. The external library functions `Math.sin`,
`Math.cos` and `Math.random` are not part of the repository and are taken as
oracle parameters of the definitions that use them.
-/

/-- Simulation parameters, the `GLVParams` type of the source:
growth rates `r`, interaction matrix `A`, time step `dt`. -/
structure GLVParams where
  r : List ℚ
  A : List (List ℚ)
  dt : ℚ
deriving DecidableEq

/-- Local state of the loop inside `updatePopulations`: `pops` is the caller's
array (writable in JavaScript, hence modelled explicitly) and `newPops` the
copy `[...pops]` that the loop writes into. -/
structure LoopState where
  pops : List ℚ
  newPops : List ℚ
deriving DecidableEq

/-- One iteration of the `for i` loop of `updatePopulations`:
accumulate `interaction += A[i][j] * pops[j]` for `j = 0, 1, 2`, form
`dN = pops[i] * (r[i] + interaction)` and write
`newPops[i] = Math.max(0.1, pops[i] + dN * dt)`. Only `newPops` is written;
`pops` is only read. -/
def loopBody (params : GLVParams) (st : LoopState) (i : Nat) : LoopState :=
  let interaction := [0, 1, 2].foldl
    (fun acc j => acc + ((params.A.getD i []).getD j 0) * st.pops.getD j 0) 0
  let dN := st.pops.getD i 0 * (params.r.getD i 0 + interaction)
  { st with newPops := st.newPops.set i (max (1/10) (st.pops.getD i 0 + dN * params.dt)) }

/-- Embedding of `updatePopulations(pops, params)`: copy the input
(`const newPops = [...pops]`), run the loop for `i = 0, 1, 2`, return the
copy. -/
def updatePopulations (pops : List ℚ) (params : GLVParams) : List ℚ :=
  ([0, 1, 2].foldl (loopBody params) ⟨pops, pops⟩).newPops

/-- Same call as `updatePopulations`, additionally returning (first component)
the contents of the caller's array after the call, so that absence of
mutation of the input is expressible. -/
def updatePopulationsCall (pops : List ℚ) (params : GLVParams) : List ℚ × List ℚ :=
  let done := [0, 1, 2].foldl (loopBody params) ⟨pops, pops⟩
  (done.pops, done.newPops)

/-- Step function with the parameters first, for iteration. -/
def stepPops (params : GLVParams) (pops : List ℚ) : List ℚ :=
  updatePopulations pops params

/-- Parameter values installed at startup in `Home`:
`r = [0.5, 0.3, 0.4]`, `A = [[-0.1, 0.5, -0.2], [-0.5, -0.1, 0.0],
[-0.1, -0.2, -0.1]]`, `dt = 0.05`. -/
def defaultParams : GLVParams :=
  { r := [1/2, 3/10, 2/5]
  , A := [[-1/10, 1/2, -1/5], [-1/2, -1/10, 0], [-1/10, -1/5, -1/10]]
  , dt := 1/20 }

/-- Observable simulation state of the page: current populations, the
parameters ref, and the explanation text. -/
structure SimState where
  pops : List ℚ
  params : GLVParams
  explanation : String
deriving DecidableEq

/-- Embedding of `applyScenario(type)`: an if/else-if chain on the string tag
that overwrites `params.current.r` and the explanation for the three known
tags and does nothing on any other tag. The source function is total and
returns nothing; it has no error channel. -/
def applyScenario (type : String) (s : SimState) : SimState :=
  if type = "balance" then
    { s with params := { s.params with r := [1/2, 3/10, 2/5] }
           , explanation := "Stable Equilibrium: Predator and Prey populations oscillate in harmony." }
  else if type = "explosion" then
    { s with params := { s.params with r := [4/5, 3/2, 1/10] }
           , explanation := "Population Explosion: High growth rate leads to chaotic spikes." }
  else if type = "extinction" then
    { s with params := { s.params with r := [-1/5, -1/10, -1/10] }
           , explanation := "Mass Extinction: Harsh conditions cause all populations to collapse." }
  else s

/-- State at startup: populations `[1.0, 1.0, 1.0]`, default parameters,
default explanation string. -/
def initialState : SimState :=
  { pops := [1, 1, 1], params := defaultParams
  , explanation := "Default balanced ecosystem." }

/-- One particle of the ensemble: static base coordinates and species index. -/
structure Particle where
  x : ℚ
  y : ℚ
  z : ℚ
  species : Nat
deriving DecidableEq

/-- Particle ensemble of `Colony`: `count` particles whose positions are drawn
with `Math.random` and trigonometry — modelled by the position oracle `pos`,
one coordinate triple per index — and whose species is `i % 3`, as in the
source line `species: i % 3`. -/
def generateEnsemble (count : Nat) (pos : Nat → ℚ × ℚ × ℚ) : List Particle :=
  (List.range count).map fun i =>
    { x := (pos i).1, y := (pos i).2.1, z := (pos i).2.2, species := i % 3 }

/-- Number of particles of a list carrying a given species index. -/
def countSpecies (s : Nat) (l : List Particle) : Nat :=
  (l.filter (fun q => q.species == s)).length

/-- Trivial position oracle used to instantiate theorems on concrete input. -/
def zeroPos : Nat → ℚ × ℚ × ℚ := fun _ => (0, 0, 0)

/-- Per-particle render attributes computed every frame. -/
structure Transform where
  px : ℚ
  py : ℚ
  pz : ℚ
  scale : ℚ
  color : String
deriving DecidableEq

/-- Static color table of the source: `['#ff0055', '#00cc88', '#22ccff']`. -/
def colorTable : List String := ["#ff0055", "#00cc88", "#22ccff"]

/-- Out-of-range color default (never reached: species is always `i % 3`). -/
def defaultColor : String := ""

/-- Per-particle body of the `useFrame` callback of `Colony` in
`src/unnamed/part_000`: scale `populations[p.species] * 0.4`, hover position
`(p.x + Math.sin(time + p.x) * 0.5, p.y + Math.cos(time + p.y) * 0.5, p.z)`,
color `colors[p.species]`. The library functions `Math.sin` and `Math.cos`
are passed as oracle parameters `sin` and `cos`. -/
def computeTransform (sin cos : ℚ → ℚ) (p : Particle) (populations : List ℚ)
    (time : ℚ) : Transform :=
  { px := p.x + sin (time + p.x) * (1/2)
  , py := p.y + cos (time + p.y) * (1/2)
  , pz := p.z
  , scale := populations.getD p.species 0 * (2/5)
  , color := colorTable.getD p.species defaultColor }

/-- One chart sample pushed by the sampling loop: `{name: '', A, B, C}`. -/
structure HistEntry where
  name : String
  A : ℚ
  B : ℚ
  C : ℚ
deriving DecidableEq

/-- History update of the sampling loop: append the new sample
(`[...prev, entry]`) and keep the last at most 50 entries (`.slice(-50)`). -/
def pushHistory (prev : List HistEntry) (e : HistEntry) : List HistEntry :=
  let newData := prev ++ [e]
  newData.drop (newData.length - 50)

/-- History after a whole run of sampling updates, starting from the empty
history. -/
def historyAfter (samples : List HistEntry) : List HistEntry :=
  samples.foldl pushHistory []

/-- Closed form of one `updatePopulations` call on a three-component vector,
with arbitrary parameters; the sums appear exactly as the loops accumulate
them. -/
theorem updatePopulations_closed (p : GLVParams) (a b c : ℚ) :
    updatePopulations [a, b, c] p =
      [ max (1/10) (a + a * (p.r.getD 0 0 + (0 + (p.A.getD 0 []).getD 0 0 * a + (p.A.getD 0 []).getD 1 0 * b + (p.A.getD 0 []).getD 2 0 * c)) * p.dt)
      , max (1/10) (b + b * (p.r.getD 1 0 + (0 + (p.A.getD 1 []).getD 0 0 * a + (p.A.getD 1 []).getD 1 0 * b + (p.A.getD 1 []).getD 2 0 * c)) * p.dt)
      , max (1/10) (c + c * (p.r.getD 2 0 + (0 + (p.A.getD 2 []).getD 0 0 * a + (p.A.getD 2 []).getD 1 0 * b + (p.A.getD 2 []).getD 2 0 * c)) * p.dt) ] := rfl

/-- Closed form of one `updatePopulations` call with the parameter structure
fully spelt out. -/
theorem updatePopulations_closed_explicit
    (r0 r1 r2 a00 a01 a02 a10 a11 a12 a20 a21 a22 dt x y z : ℚ) :
    updatePopulations [x, y, z]
        ⟨[r0, r1, r2], [[a00, a01, a02], [a10, a11, a12], [a20, a21, a22]], dt⟩ =
      [ max (1/10) (x + x * (r0 + (0 + a00 * x + a01 * y + a02 * z)) * dt)
      , max (1/10) (y + y * (r1 + (0 + a10 * x + a11 * y + a12 * z)) * dt)
      , max (1/10) (z + z * (r2 + (0 + a20 * x + a21 * y + a22 * z)) * dt) ] := rfl

/-- Value of one step at the startup parameters and population `[1, 1, 1]`. -/
theorem step_default_one :
    updatePopulations [1, 1, 1] defaultParams = [207/200, 197/200, 1] := by
  rw [show defaultParams
        = (⟨[1/2, 3/10, 2/5],
            [[-1/10, 1/2, -1/5], [-1/2, -1/10, 0], [-1/10, -1/5, -1/10]],
            1/20⟩ : GLVParams) from rfl,
      updatePopulations_closed_explicit]
  norm_num

/-- Value of one step at the startup parameters and population `[0, 0, 0]`. -/
theorem step_default_zero :
    updatePopulations [0, 0, 0] defaultParams = [1/10, 1/10, 1/10] := by
  rw [show defaultParams
        = (⟨[1/2, 3/10, 2/5],
            [[-1/10, 1/2, -1/5], [-1/2, -1/10, 0], [-1/10, -1/5, -1/10]],
            1/20⟩ : GLVParams) from rfl,
      updatePopulations_closed_explicit]
  norm_num

/-- C1: for every `SimulationParameters` value and every input vector whose
three components are all at least 0.1, every component of the output of one
`updatePopulations` step is at least 0.1. -/
theorem updatePopulations_floor (p : GLVParams) (a b c : ℚ)
    (ha : 1/10 ≤ a) (hb : 1/10 ≤ b) (hc : 1/10 ≤ c) :
    ∀ x ∈ updatePopulations [a, b, c] p, 1/10 ≤ x := by
  intro x hx
  rw [updatePopulations_closed] at hx
  simp only [List.mem_cons, List.not_mem_nil, or_false] at hx
  rcases hx with h | h | h <;> (rw [h]; exact le_max_left _ _)

/-- Witness for C1 at the startup parameters and population `[1, 1, 1]`:
the first output component, `207/200`, is at least `1/10`. -/
theorem updatePopulations_floor_witness :
    ((1:ℚ)/10 ≤ 1) ∧ ((1:ℚ)/10 ≤ 207/200) :=
  ⟨by norm_num,
   updatePopulations_floor defaultParams 1 1 1 (by norm_num) (by norm_num)
     (by norm_num) (207/200) (by simp [step_default_one])⟩

/-- C10: the floor holds unconditionally — for every input vector whatsoever,
including components below 0.1 or negative, every component of the output of
`updatePopulations` is at least 0.1; no precondition on the input is needed. -/
theorem updatePopulations_floor_unconditional (p : GLVParams) (a b c : ℚ) :
    ∀ x ∈ updatePopulations [a, b, c] p, 1/10 ≤ x := by
  intro x hx
  rw [updatePopulations_closed] at hx
  simp only [List.mem_cons, List.not_mem_nil, or_false] at hx
  rcases hx with h | h | h <;> (rw [h]; exact le_max_left _ _)

/-- Witness for C10 at input `[0, 0, 0]` (components below the floor):
the output component `1/10` is at least `1/10`. -/
theorem updatePopulations_floor_unconditional_witness : (1:ℚ)/10 ≤ 1/10 :=
  updatePopulations_floor_unconditional defaultParams 0 0 0 (1/10)
    (by simp [step_default_zero])

/-- C3: determinism and absence of input mutation — two calls on identical
arguments return identical outputs, and the caller's array after the call is
what it was before the call. -/
theorem updatePopulations_pure (v : List ℚ) (p : GLVParams) :
    updatePopulations v p = updatePopulations v p ∧
    (updatePopulationsCall v p).1 = v :=
  ⟨rfl, rfl⟩

/-- Counterexample to C2: at the startup parameters and population
`[1, 1, 1]`, the first component of one step is `207/200 = 1.035`, which is
not within `1e-9` of the claimed value `1.010`. -/
theorem updatePopulations_known_value_counterexample :
    ¬ |(updatePopulations [1, 1, 1] defaultParams).getD 0 0 - 101/100|
        ≤ 1/1000000000 := by
  rw [step_default_one]
  have h1 : ((207:ℚ)/200 - 101/100) = 1/40 := by norm_num
  simp only [List.getD_cons_zero, h1, abs_of_nonneg (by norm_num : (0:ℚ) ≤ 1/40)]
  norm_num

/-- C2 amended: at the startup parameters and population `[1, 1, 1]`, the
first component of one step equals the claim's own formula
`1 + 1*(0.5 + (-0.1*1 + 0.5*1 - 0.2*1))*0.05`, whose value is `1.035`
(not `1.010`), to within `1e-9`. -/
theorem updatePopulations_known_value :
    (updatePopulations [1, 1, 1] defaultParams).getD 0 0
        = 1 + 1 * ((1/2) + ((-1/10) * 1 + (1/2) * 1 + (-1/5) * 1)) * (1/20)
      ∧ |(updatePopulations [1, 1, 1] defaultParams).getD 0 0 - 207/200|
          ≤ 1/1000000000 := by
  rw [step_default_one]
  simp only [List.getD_cons_zero, sub_self, abs_zero]
  norm_num

/-- Counterexample to C4: on the unknown tag "unknown" the source
`applyScenario` returns its input state unchanged. The function is total and
has no error channel (the source body is an if/else-if chain with no final
else and no throw), so nothing is signalled to the caller: an invalid tag is
a silent no-op, not an InvalidScenario error. -/
theorem applyScenario_unknown_counterexample :
    applyScenario "unknown" initialState = initialState := by
  simp [applyScenario]

/-- C4 amended: for every tag that is not one of the known presets,
`applyScenario` silently leaves the whole simulation state — in particular
`growthRates` — unchanged; no error is signalled. -/
theorem applyScenario_unknown_noop (t : String) (s : SimState)
    (h1 : t ≠ "balance") (h2 : t ≠ "explosion") (h3 : t ≠ "extinction") :
    applyScenario t s = s ∧ (applyScenario t s).params.r = s.params.r := by
  simp [applyScenario, h1, h2, h3]

/-- Witness for the amended C4 at the tag "bogus" and the startup state. -/
theorem applyScenario_unknown_noop_witness :
    ("bogus" ≠ "balance" ∧ "bogus" ≠ "explosion" ∧ "bogus" ≠ "extinction") ∧
    (applyScenario "bogus" initialState = initialState ∧
      (applyScenario "bogus" initialState).params.r = initialState.params.r) :=
  ⟨⟨by decide, by decide, by decide⟩,
   applyScenario_unknown_noop "bogus" initialState (by decide) (by decide)
     (by decide)⟩

/-- C5: for every known scenario tag, `applyScenario` leaves the interaction
matrix and the time step of the simulation parameters unchanged and does not
reset the current population vector. -/
theorem applyScenario_frame (t : String) (s : SimState)
    (h : t = "balance" ∨ t = "explosion" ∨ t = "extinction") :
    (applyScenario t s).params.A = s.params.A ∧
    (applyScenario t s).params.dt = s.params.dt ∧
    (applyScenario t s).pops = s.pops := by
  rcases h with h | h | h <;> subst h <;> simp [applyScenario]

/-- Witness for C5 at the tag "extinction" and the startup state. -/
theorem applyScenario_frame_witness :
    ("extinction" = "balance" ∨ "extinction" = "explosion" ∨
      "extinction" = "extinction") ∧
    ((applyScenario "extinction" initialState).params.A
        = initialState.params.A ∧
      (applyScenario "extinction" initialState).params.dt
        = initialState.params.dt ∧
      (applyScenario "extinction" initialState).pops = initialState.pops) :=
  ⟨Or.inr (Or.inr rfl),
   applyScenario_frame "extinction" initialState (Or.inr (Or.inr rfl))⟩

/-- C8: `computeTransform` is pure — identical inputs give identical outputs —
the scale is exactly `populations[species] * k` for a fixed constant `k` in
the range 0.4 to 0.5 (here `k = 0.4`) with no other dependency, the position
is `(baseX + sin(t + baseX) * 0.5, baseY + cos(t + baseY) * 0.5, baseZ)`, and
the color is a static per-species table lookup that does not vary with the
population vector. -/
theorem computeTransform_pure :
    ∃ k : ℚ, (2/5 ≤ k ∧ k ≤ 1/2) ∧
      ∀ (sin cos : ℚ → ℚ) (p : Particle) (v w : List ℚ) (t : ℚ),
        computeTransform sin cos p v t = computeTransform sin cos p v t ∧
        (computeTransform sin cos p v t).scale = v.getD p.species 0 * k ∧
        (computeTransform sin cos p v t).px = p.x + sin (t + p.x) * (1/2) ∧
        (computeTransform sin cos p v t).py = p.y + cos (t + p.y) * (1/2) ∧
        (computeTransform sin cos p v t).pz = p.z ∧
        (computeTransform sin cos p v t).color
            = colorTable.getD p.species defaultColor ∧
        (computeTransform sin cos p v t).color
            = (computeTransform sin cos p w t).color :=
  ⟨2/5, ⟨le_refl _, by norm_num⟩,
   fun _ _ _ _ _ _ => ⟨rfl, rfl, rfl, rfl, rfl, rfl, rfl⟩⟩

/-- Counting helper for C7: among the first `3 * k` indices, exactly `k` are
congruent to each residue `s < 3` modulo 3. -/
theorem countP_mod_range (s k : Nat) (hs : s < 3) :
    (List.range (3 * k)).countP (fun i => i % 3 == s) = k := by
  induction k with
  | zero => rfl
  | succ k ih =>
    have h3 : 3 * (k + 1) = (3 * k) + 1 + 1 + 1 := by omega
    rw [h3, List.range_succ, List.range_succ, List.range_succ,
        List.countP_append, List.countP_append, List.countP_append, ih]
    have e0 : (3 * k) % 3 = 0 := by omega
    have e1 : (3 * k + 1) % 3 = 1 := by omega
    have e2 : (3 * k + 1 + 1) % 3 = 2 := by omega
    simp only [List.countP_cons, List.countP_nil, e0, e1, e2]
    interval_cases s <;> simp

/-- C7: `generateEnsemble(n)` assigns species `i % 3` to the i-th particle,
so for every `n` divisible by 3 and every species index `s < 3` exactly
`n / 3` particles carry species `s`, whatever the position oracle drew. -/
theorem generateEnsemble_balanced (n : Nat) (pos : Nat → ℚ × ℚ × ℚ) (s : Nat)
    (hn : 3 ∣ n) (hs : s < 3) :
    countSpecies s (generateEnsemble n pos) = n / 3 := by
  obtain ⟨k, rfl⟩ := hn
  rw [countSpecies, generateEnsemble, List.filter_map, List.length_map,
      ← List.countP_eq_length_filter]
  simpa using countP_mod_range s k hs

/-- Witness for C7 at `n = 6` and species 0 with the trivial position
oracle. -/
theorem generateEnsemble_balanced_witness :
    (3 ∣ 6) ∧ 0 < 3 ∧ countSpecies 0 (generateEnsemble 6 zeroPos) = 6 / 3 :=
  ⟨⟨2, rfl⟩, by decide,
   generateEnsemble_balanced 6 zeroPos 0 ⟨2, rfl⟩ (by decide)⟩

/-- Unfolding helper for C9: pushing one more sample onto a history that is
the most recent window of `l` gives the most recent window of `l ++ [e]`. -/
theorem pushHistory_window (l : List HistEntry) (e : HistEntry) :
    pushHistory (l.drop (l.length - 50)) e
      = (l ++ [e]).drop ((l ++ [e]).length - 50) := by
  have hunfold : pushHistory (l.drop (l.length - 50)) e
      = (l.drop (l.length - 50) ++ [e]).drop
          ((l.drop (l.length - 50) ++ [e]).length - 50) := rfl
  rw [hunfold, List.length_append, List.length_append, List.length_drop,
      List.length_singleton]
  rw [List.drop_append_of_le_length (by rw [List.length_drop]; omega),
      List.drop_append_of_le_length (by omega), List.drop_drop]
  congr 2
  omega

/-- Window form of the whole history after any run of samples. -/
theorem historyAfter_window (samples : List HistEntry) :
    historyAfter samples = samples.drop (samples.length - 50) := by
  induction samples using List.reverseRecOn with
  | nil => rfl
  | append_singleton l e ih =>
    rw [historyAfter, List.foldl_append, List.foldl_cons, List.foldl_nil,
        ← historyAfter, ih]
    exact pushHistory_window l e

/-- C9: after every sampling-loop update the retained history has at most 50
entries and consists exactly of the most recent samples in order — the
sliding window of the sample sequence produced so far. -/
theorem history_sliding_window (samples : List HistEntry) :
    (historyAfter samples).length ≤ 50 ∧
    historyAfter samples = samples.drop (samples.length - 50) := by
  refine ⟨?_, historyAfter_window samples⟩
  rw [historyAfter_window samples, List.length_drop]
  omega

/-- Interaction helper for C6: a sum of nonpositive-times-nonnegative products
is nonpositive. -/
theorem inter_nonpos (a b c x y z : ℚ) (ha : a ≤ 0) (hb : b ≤ 0) (hc : c ≤ 0)
    (hx : 0 ≤ x) (hy : 0 ≤ y) (hz : 0 ≤ z) :
    0 + a * x + b * y + c * z ≤ 0 := by
  have h1 : a * x ≤ 0 := mul_nonpos_of_nonpos_of_nonneg ha hx
  have h2 : b * y ≤ 0 := mul_nonpos_of_nonpos_of_nonneg hb hy
  have h3 : c * z ≤ 0 := mul_nonpos_of_nonpos_of_nonneg hc hz
  linarith

/-- Component helper for C6, non-increase: with a negative growth rate, a
nonpositive interaction term and a positive time step, the clamped Euler step
does not increase a component that is at least the floor. -/
theorem comp_step_le (w r inter dt : ℚ) (hw : 1/10 ≤ w) (hr : r < 0)
    (hint : inter ≤ 0) (hdt : 0 < dt) :
    max (1/10) (w + w * (r + inter) * dt) ≤ w := by
  apply max_le hw
  have hw0 : (0:ℚ) < w := lt_of_lt_of_le (by norm_num) hw
  have h2 : w * (r + inter) * dt < 0 :=
    mul_neg_of_neg_of_pos (mul_neg_of_pos_of_neg hw0 (by linarith)) hdt
  linarith

/-- Component helper for C6, decay: the clamped Euler step of a component
bounded by `max (1/10) B` is bounded by `max (1/10) (q * B)`, where `q` is a
contraction factor dominating `1 + r * dt`. -/
theorem comp_step_bound (w x y z r a b c dt q B : ℚ)
    (hw : 1/10 ≤ w) (hx : 0 ≤ x) (hy : 0 ≤ y) (hz : 0 ≤ z)
    (ha : a ≤ 0) (hb : b ≤ 0) (hc : c ≤ 0)
    (hdt : 0 < dt) (hq0 : 0 ≤ q) (hq : 1 + r * dt ≤ q) (hq1 : q ≤ 1)
    (hwB : w ≤ max (1/10) B) (hB : 0 ≤ B) :
    max (1/10) (w + w * (r + (0 + a * x + b * y + c * z)) * dt)
      ≤ max (1/10) (q * B) := by
  apply max_le (le_max_left _ _)
  have hw0 : (0:ℚ) < w := lt_of_lt_of_le (by norm_num) hw
  have hint : 0 + a * x + b * y + c * z ≤ 0 :=
    inter_nonpos a b c x y z ha hb hc hx hy hz
  have hA : w + w * (r + (0 + a * x + b * y + c * z)) * dt
      ≤ w * (1 + r * dt) := by
    have hprod : w * dt * (0 + a * x + b * y + c * z) ≤ 0 :=
      mul_nonpos_of_nonneg_of_nonpos (mul_nonneg hw0.le hdt.le) hint
    nlinarith [hprod]
  have hC : w * (1 + r * dt) ≤ w * q := mul_le_mul_of_nonneg_left hq hw0.le
  have hD : w * q ≤ max (1/10) B * q := mul_le_mul_of_nonneg_right hwB hq0
  have hE : max (1/10) B * q ≤ max (1/10) (q * B) := by
    rcases le_total ((1:ℚ)/10) B with h | h
    · rw [max_eq_right h, mul_comm]
      exact le_max_right _ _
    · rw [max_eq_left h]
      have h6 : (1:ℚ)/10 * q ≤ 1/10 * 1 :=
        mul_le_mul_of_nonneg_left hq1 (by norm_num)
      have h7 : (1:ℚ)/10 ≤ max (1/10) (q * B) := le_max_left _ _
      linarith
  linarith

/-- C6: with all three growth rates strictly negative, every interaction
entry nonpositive, a positive time step and a start whose components are all
at least the floor, one step is componentwise non-increasing, and iterating
the step reaches the all-floor vector `[0.1, 0.1, 0.1]` after a bounded
number of steps. -/
theorem collapse_converges_to_floor
    (r0 r1 r2 a00 a01 a02 a10 a11 a12 a20 a21 a22 dt v0 v1 v2 : ℚ)
    (hr0 : r0 < 0) (hr1 : r1 < 0) (hr2 : r2 < 0)
    (ha00 : a00 ≤ 0) (ha01 : a01 ≤ 0) (ha02 : a02 ≤ 0)
    (ha10 : a10 ≤ 0) (ha11 : a11 ≤ 0) (ha12 : a12 ≤ 0)
    (ha20 : a20 ≤ 0) (ha21 : a21 ≤ 0) (ha22 : a22 ≤ 0)
    (hdt : 0 < dt)
    (hv0 : 1/10 ≤ v0) (hv1 : 1/10 ≤ v1) (hv2 : 1/10 ≤ v2) :
    List.Forall₂ (· ≤ ·)
      (stepPops ⟨[r0, r1, r2],
        [[a00, a01, a02], [a10, a11, a12], [a20, a21, a22]], dt⟩ [v0, v1, v2])
      [v0, v1, v2] ∧
    ∃ N : ℕ,
      (stepPops ⟨[r0, r1, r2],
        [[a00, a01, a02], [a10, a11, a12], [a20, a21, a22]], dt⟩)^[N]
          [v0, v1, v2] = [1/10, 1/10, 1/10] := by
  have hx0 : (0:ℚ) ≤ v0 := le_trans (by norm_num) hv0
  have hy0 : (0:ℚ) ≤ v1 := le_trans (by norm_num) hv1
  have hz0 : (0:ℚ) ≤ v2 := le_trans (by norm_num) hv2
  constructor
  · rw [stepPops, updatePopulations_closed_explicit]
    exact List.Forall₂.cons
      (comp_step_le v0 r0 _ dt hv0 hr0
        (inter_nonpos a00 a01 a02 v0 v1 v2 ha00 ha01 ha02 hx0 hy0 hz0) hdt)
      (List.Forall₂.cons
        (comp_step_le v1 r1 _ dt hv1 hr1
          (inter_nonpos a10 a11 a12 v0 v1 v2 ha10 ha11 ha12 hx0 hy0 hz0) hdt)
        (List.Forall₂.cons
          (comp_step_le v2 r2 _ dt hv2 hr2
            (inter_nonpos a20 a21 a22 v0 v1 v2 ha20 ha21 ha22 hx0 hy0 hz0) hdt)
          List.Forall₂.nil))
  · set rm : ℚ := max r0 (max r1 r2) with hrm_def
    have hrm : rm < 0 := max_lt hr0 (max_lt hr1 hr2)
    set q : ℚ := max (1 + rm * dt) 0 with hq_def
    have hq0 : (0:ℚ) ≤ q := le_max_right _ _
    have hq1 : q < 1 := by
      apply max_lt _ one_pos
      nlinarith [mul_neg_of_neg_of_pos hrm hdt]
    have hq_le : ∀ r' : ℚ, r' ≤ rm → 1 + r' * dt ≤ q := by
      intro r' h
      have : r' * dt ≤ rm * dt := mul_le_mul_of_nonneg_right h hdt.le
      calc 1 + r' * dt ≤ 1 + rm * dt := by linarith
        _ ≤ q := le_max_left _ _
    set vm : ℚ := max v0 (max v1 v2) with hvm_def
    have hvmf : (1:ℚ)/10 ≤ vm := le_trans hv0 (le_max_left _ _)
    have hvm0 : (0:ℚ) < vm := lt_of_lt_of_le (by norm_num) hvmf
    have hv0m : v0 ≤ vm := le_max_left _ _
    have hv1m : v1 ≤ vm := le_max_of_le_right (le_max_left _ _)
    have hv2m : v2 ≤ vm := le_max_of_le_right (le_max_right _ _)
    have inv : ∀ n : ℕ, ∃ x y z : ℚ,
        (stepPops ⟨[r0, r1, r2],
          [[a00, a01, a02], [a10, a11, a12], [a20, a21, a22]], dt⟩)^[n]
            [v0, v1, v2] = [x, y, z] ∧
        (1/10 ≤ x ∧ x ≤ max (1/10) (q ^ n * vm)) ∧
        (1/10 ≤ y ∧ y ≤ max (1/10) (q ^ n * vm)) ∧
        (1/10 ≤ z ∧ z ≤ max (1/10) (q ^ n * vm)) := by
      intro n
      induction n with
      | zero =>
        refine ⟨v0, v1, v2, rfl, ⟨hv0, ?_⟩, ⟨hv1, ?_⟩, ⟨hv2, ?_⟩⟩
        · rw [pow_zero, one_mul]; exact le_max_of_le_right hv0m
        · rw [pow_zero, one_mul]; exact le_max_of_le_right hv1m
        · rw [pow_zero, one_mul]; exact le_max_of_le_right hv2m
      | succ n ih =>
        obtain ⟨x, y, z, hxyz, ⟨hx1, hx2⟩, ⟨hy1, hy2⟩, ⟨hz1, hz2⟩⟩ := ih
        have hxn : (0:ℚ) ≤ x := le_trans (by norm_num) hx1
        have hyn : (0:ℚ) ≤ y := le_trans (by norm_num) hy1
        have hzn : (0:ℚ) ≤ z := le_trans (by norm_num) hz1
        have hBn : (0:ℚ) ≤ q ^ n * vm := mul_nonneg (pow_nonneg hq0 n) hvm0.le
        have hpow : q * (q ^ n * vm) = q ^ (n + 1) * vm := by ring
        rw [Function.iterate_succ_apply', hxyz, stepPops,
            updatePopulations_closed_explicit]
        refine ⟨_, _, _, rfl,
          ⟨le_max_left _ _, ?_⟩, ⟨le_max_left _ _, ?_⟩, ⟨le_max_left _ _, ?_⟩⟩
        · have h := comp_step_bound x x y z r0 a00 a01 a02 dt q (q ^ n * vm)
            hx1 hxn hyn hzn ha00 ha01 ha02 hdt hq0
            (hq_le r0 (le_max_left _ _)) hq1.le hx2 hBn
          rwa [hpow] at h
        · have h := comp_step_bound y x y z r1 a10 a11 a12 dt q (q ^ n * vm)
            hy1 hxn hyn hzn ha10 ha11 ha12 hdt hq0
            (hq_le r1 (le_max_of_le_right (le_max_left _ _))) hq1.le hy2 hBn
          rwa [hpow] at h
        · have h := comp_step_bound z x y z r2 a20 a21 a22 dt q (q ^ n * vm)
            hz1 hxn hyn hzn ha20 ha21 ha22 hdt hq0
            (hq_le r2 (le_max_of_le_right (le_max_right _ _))) hq1.le hz2 hBn
          rwa [hpow] at h
    obtain ⟨n, hn⟩ :=
      exists_pow_lt_of_lt_one (div_pos (by norm_num) hvm0 : (0:ℚ) < 1/10 / vm) hq1
    have hsmall : q ^ n * vm ≤ 1/10 := ((lt_div_iff₀ hvm0).mp hn).le
    obtain ⟨x, y, z, hxyz, ⟨hx1, hx2⟩, ⟨hy1, hy2⟩, ⟨hz1, hz2⟩⟩ := inv n
    rw [max_eq_left hsmall] at hx2 hy2 hz2
    refine ⟨n, ?_⟩
    rw [hxyz, le_antisymm hx2 hx1, le_antisymm hy2 hy1, le_antisymm hz2 hz1]

/-- Witness for C6: growth rates all `-1`, the zero interaction matrix, time
step `1/2` and start `[1, 1, 1]`. -/
theorem collapse_converges_to_floor_witness :
    ((-1:ℚ) < 0 ∧ (0:ℚ) ≤ 0 ∧ (0:ℚ) < 1/2 ∧ (1:ℚ)/10 ≤ 1) ∧
    (List.Forall₂ (· ≤ ·)
      (stepPops ⟨[-1, -1, -1], [[0, 0, 0], [0, 0, 0], [0, 0, 0]], 1/2⟩
        [1, 1, 1]) [1, 1, 1] ∧
    ∃ N : ℕ,
      (stepPops ⟨[-1, -1, -1], [[0, 0, 0], [0, 0, 0], [0, 0, 0]], 1/2⟩)^[N]
        [1, 1, 1] = [1/10, 1/10, 1/10]) :=
  ⟨⟨by norm_num, le_refl 0, by norm_num, by norm_num⟩,
   collapse_converges_to_floor (-1) (-1) (-1) 0 0 0 0 0 0 0 0 0 (1/2) 1 1 1
     (by norm_num) (by norm_num) (by norm_num)
     (le_refl 0) (le_refl 0) (le_refl 0) (le_refl 0) (le_refl 0) (le_refl 0)
     (le_refl 0) (le_refl 0) (le_refl 0)
     (by norm_num) (by norm_num) (by norm_num) (by norm_num)⟩
